import Mathlib

/-!
Verification of the wifi.py rogue-AP scoring tool.

Shallow embedding of `src/wifi.py`: the per-record normalizer (the body of
the `for row in data` loop, lines 54-96), the scorer `compute_scores`
(lines 115-173) with its helper `match_oui` (lines 107-113), and the batch
pipeline (normalize all records, then export).  Python floats are modelled
exactly as rationals (`ℚ`); the `np.nan` sentinel is modelled as `none` of
an `Option ℚ` (all comparisons with NaN are false, which the scorer's
range test reproduces).  Python exceptions are modelled with `Except`:
`normalize` returns the first error raised during the loop body, in the
source's evaluation order.  The pandas `to_datetime` stage is abstracted
(timestamps are carried as raw strings); no claim depends on it.
-/

namespace Wifi

/-- A JSON field value as seen by Python's `float()`: either a value that
`float()` converts (JSON numbers and numeric strings, modelled exactly as a
rational) or a value on which `float()` raises (`ValueError`/`TypeError`). -/
inductive PyVal where
  | ofNum (q : ℚ)
  | nonNumeric (s : String)
deriving DecidableEq

/-- The Python exceptions the normalizer loop can raise. -/
inductive PyErr where
  | keyError (k : String)
  | attributeError (s : String)
  | valueError (s : String)
  | indexError
deriving DecidableEq

/-- One raw JSON scan record (§3 RawRecord).  Every field is optional at the
JSON level; `rssis_all` is `none` when `rssis` or `rssis.all` is missing
(both cases take the `[np.nan]` default on line 92), and `some l` when the
list `l` is present.  `ie_info` is the information-element mapping as an
association list from IE name to a list value. -/
structure RawRecord where
  timestamp : Option String := none
  mac_addr : Option String := none
  vendor : Option String := none
  ssid : Option String := none
  channel : Option Int := none
  bandwidth : Option String := none
  beacon_int : Option PyVal := none
  rssis_all : Option (List PyVal) := none
  ie_info : Option (List (String × List String)) := none
  multi_channel : Option Bool := none

/-- One normalized row of the DataFrame (the dict appended on lines 83-96).
The DataFrame is built with the fixed column list of lines 43-50, so this
record has exactly those twelve fields — in particular no `multi_channel`
column survives normalization.  `none` in `beacon_int`/`rssi_dbm` models
`np.nan`. -/
structure NormRow where
  date : Option String
  bssid : String
  oui_vendor : String
  ssid : String
  chan : Option Int
  bandwidth : String
  bandwidth_mhz : Option Nat
  beacon_int : Option ℚ
  rssi_dbm : Option ℚ
  ie_keys : List String
  rsn_ies : String
  entropy_penalty : Nat
deriving DecidableEq

/-- `s.startswith(p)`: `listStartsWith p.data s.data` is true when the char
list of `p` is an initial segment of the char list of `s`. -/
def listStartsWith : List Char → List Char → Bool
  | [], _ => true
  | _ :: _, [] => false
  | a :: pa, b :: pb => a == b && listStartsWith pa pb

/-- Python's `p in s` on strings (substring containment), on char lists. -/
def listHasSub (pat : List Char) : List Char → Bool
  | [] => listStartsWith pat []
  | c :: cs => listStartsWith pat (c :: cs) || listHasSub pat cs

/-- Python `s.startswith(p)`. -/
def strStartsWith (s p : String) : Bool := listStartsWith p.data s.data

/-- Python `p in s` for strings. -/
def strContainsSub (s p : String) : Bool := listHasSub p.data s.data

/-- Python `s[:n]` (string slice of the first `n` characters). -/
def pyTake (s : String) (n : Nat) : String := String.mk (s.data.take n)

/-- Python `s.lower()`. -/
def pyLower (s : String) : String := String.mk (s.data.map Char.toLower)

/-- Python `s.upper()`. -/
def pyUpper (s : String) : String := String.mk (s.data.map Char.toUpper)

/-- Python `s.strip()`: drop whitespace from both ends. -/
def pyStrip (s : String) : String :=
  String.mk (((s.data.dropWhile Char.isWhitespace).reverse.dropWhile
    Char.isWhitespace).reverse)

/-- `re.search(r'(\d+)', s)` (line 78): the first maximal run of digits. -/
def firstDigitRun : List Char → Option (List Char)
  | [] => none
  | c :: cs =>
    if c.isDigit then some (c :: cs.takeWhile Char.isDigit) else firstDigitRun cs

/-- Decimal value of a digit run (`int(m.group(1))`, line 80). -/
def digitsToNat (ds : List Char) : Nat :=
  ds.foldl (fun n c => 10 * n + (c.toNat - 48)) 0

/-- Lines 77-80: `bw_mhz = int(m.group(1))` when a digit run exists, else
`None`. -/
def extractBwMhz (bw : String) : Option Nat :=
  (firstDigitRun bw.data).map digitsToNat

/-- Line 70: `entropy = int(len(bssid) * 2.5)`.  `len * 2.5` is exact in
binary floating point for every realistic length and `int` truncates the
non-negative result, so this is the floor `len * 5 / 2` in `Nat`. -/
def entropyOf (bssid : String) : Nat := bssid.length * 5 / 2

/-- Line 73: `ent_penalty = min(entropy, 100)`.  Computed on the FULL
`mac_addr` string (line 70 runs before the `bssid[:8]` truncation of
line 85). -/
def entPenalty (bssid : String) : Nat := min (entropyOf bssid) 100

/-- An ASCII single-quote character, for Python's `str()` of a list. -/
def squote : String := String.singleton (Char.ofNat 39)

/-- Python `str(rsn_ies)` for a list of strings (line 94), e.g.
`[]` or a bracketed, comma-separated list of quoted elements. -/
def pyStrList (xs : List String) : String :=
  "[" ++ String.intercalate ", " (xs.map (fun s => squote ++ s ++ squote)) ++ "]"

/-- Lines 63-66: `float(row["beacon_int"])` when present (raising on a
non-numeric value), `np.nan` when the key is absent. -/
def beaconFloat : Option PyVal → Except PyErr (Option ℚ)
  | none => Except.ok none
  | some (PyVal.ofNum q) => Except.ok (some q)
  | some (PyVal.nonNumeric s) => Except.error (PyErr.valueError s)

/-- Line 92: `float(row.get("rssis", {}).get("all", [np.nan])[0])`.
Absent list → the `[np.nan]` default, whose head is NaN (`none`).
Present but empty → `[][0]` raises IndexError.
Present with a non-numeric head → `float()` raises. -/
def rssiFloat : Option (List PyVal) → Except PyErr (Option ℚ)
  | none => Except.ok none
  | some [] => Except.error PyErr.indexError
  | some (PyVal.ofNum q :: _) => Except.ok (some q)
  | some (PyVal.nonNumeric s :: _) => Except.error (PyErr.valueError s)

/-- The body of the `for row in data` loop (lines 54-96), producing one
normalized row or the first exception, in source evaluation order:
line 60 `row.get("ie_info", "").get("RSN", [])` raises AttributeError when
`ie_info` is absent (a string has no `.get`); lines 63-66 convert
`beacon_int`; inside the dict literal, `row["ssid"]` (line 87) raises
KeyError before the `rssi_dbm` expression (line 92) runs. -/
def normalize (r : RawRecord) : Except PyErr NormRow :=
  match r.ie_info with
  | none => Except.error (PyErr.attributeError "get")
  | some ieInfo =>
    match beaconFloat r.beacon_int with
    | Except.error e => Except.error e
    | Except.ok beacon =>
      match r.ssid with
      | none => Except.error (PyErr.keyError "ssid")
      | some ssid =>
        match rssiFloat r.rssis_all with
        | Except.error e => Except.error e
        | Except.ok rssi =>
          Except.ok {
            date := r.timestamp
            bssid := pyTake (r.mac_addr.getD "") 8
            oui_vendor := r.vendor.getD ""
            ssid := ssid
            chan := r.channel
            bandwidth := pyStrip (r.bandwidth.getD "")
            bandwidth_mhz := extractBwMhz (pyStrip (r.bandwidth.getD ""))
            beacon_int := beacon
            rssi_dbm := rssi
            ie_keys := ieInfo.map Prod.fst
            rsn_ies := pyTake (pyStrList ((List.lookup "RSN" ieInfo).getD [])) 60
            entropy_penalty := entPenalty (r.mac_addr.getD "")
          }

/-- One score dict produced by `compute_scores` (lines 118-125), with the
source's keys (`ouinomismatch`, `rsnmismatch`, `multi_channel`,
`timing_anomalie`, `entropy_penalty`, `total_score`). -/
structure ScoreSet where
  ouinomismatch : Int
  rsnmismatch : Int
  multi_channel : Int
  timing_anomalie : Int
  entropy_penalty : Int
  total_score : Int
deriving DecidableEq

/-- Lines 108-109: the static vendor table of `match_oui`. -/
def base_vendor : List (String × String) :=
  [("Aironet", "00:04:5A"), ("Ralink", "00:2B:81")]

/-- Lines 107-113: `match_oui(ssid, vendor)` returns True as soon as some
key of `base_vendor`, lowercased, occurs in the lowercased SSID, else
False.  The `vendor` argument is never read. -/
def match_oui (ssid : String) (vendor : String) : Bool :=
  (base_vendor.map Prod.fst).any (fun key => strContainsSub (pyLower ssid) (pyLower key))

/-- Lines 133-138: the security-suite reference table. -/
def base_expected : List (String × String) :=
  [("WPA2", "RSNIE:AuthAlg=CCMP"), ("WPA3", "RSNIE:AuthAlg=OWE"),
   ("WEP", ""), ("WPA/TKIP", "RSNIE:AuthAlg=TSC")]

/-- Lines 139-146: the `expected_ies` list.  The test on line 141 checks
the uppercase literal `"WEP"` as a substring of `k.lower()`. -/
def expected_ies : List String :=
  base_expected.map (fun kv =>
    if strContainsSub (pyLower kv.fst) "WEP" then "WEP" else pyUpper kv.fst)

/-- One iteration of the loop on lines 148-150.  `row["rsn_ies"]` is the
truncated display STRING, so the loop variable ranges over its characters;
a character that (as a one-character string) appears in `expected_ies`
forces `rsnmismatch` to 0. -/
def rsnStep (s : ScoreSet) (c : Char) : ScoreSet :=
  if expected_ies.contains (String.singleton c) then { s with rsnmismatch := 0 } else s

/-- Lines 159-165: `timing_ok` is true when `10.000 <= beacon_int <= 10000`;
NaN (`none`) compares false on both ends, so it stays false. -/
def timing_ok (b : Option ℚ) : Bool :=
  match b with
  | some v => if 10 ≤ v ∧ v ≤ 10000 then true else false
  | none => false

/-- Lines 115-173: `compute_scores` on one normalized DataFrame row.  The
dict is threaded as successive updates in source order.  On line 155,
`row.get("multi_channel")` looks the key up in the normalized row, whose
columns are fixed by lines 43-50; the key is never there, so that disjunct
is always falsy and is dropped here.  Line 128's guard
`vendor_match is not None and not vendor_match` is `¬ vendor_match`, since
`match_oui` only returns booleans.  Line 171 takes the max over all six
dict values, including the pre-initialized `total_score = 0`. -/
def compute_scores (row : NormRow) : ScoreSet :=
  let vendor_match := match_oui row.ssid row.oui_vendor
  let s0 : ScoreSet :=
    { ouinomismatch := 0, rsnmismatch := 0, multi_channel := 0,
      timing_anomalie := 0, entropy_penalty := -(row.entropy_penalty : Int),
      total_score := 0 }
  let s1 := if vendor_match = false then { s0 with ouinomismatch := 3 } else s0
  let s2 := row.rsn_ies.data.foldl rsnStep s1
  let s3 := if strStartsWith row.bandwidth "40" || strStartsWith row.bandwidth "80"
            then { s2 with multi_channel := 2 } else s2
  let s4 := if timing_ok row.beacon_int = false
            then { s3 with timing_anomalie := 3 } else s3
  { s4 with total_score := max s4.ouinomismatch (max s4.rsnmismatch (max s4.multi_channel (max s4.timing_anomalie (max s4.entropy_penalty s4.total_score)))) }

/-- The `rows` loop over the whole input (lines 53-96): records are
normalized in order and the first exception aborts the batch. -/
def normalizeAll : List RawRecord → Except PyErr (List NormRow)
  | [] => Except.ok []
  | r :: rest =>
    match normalize r with
    | Except.error e => Except.error e
    | Except.ok row =>
      match normalizeAll rest with
      | Except.error e => Except.error e
      | Except.ok rows => Except.ok (row :: rows)

/-- The exported CSV contents (lines 98-178): `write_csv(df, ...)` runs only
if every record normalized; any exception propagates out of the loop first
and no file is produced (`none`).  (The scores of line 175 are computed but
not merged into the exported frame.) -/
def csvOutput (data : List RawRecord) : Option (List NormRow) :=
  match normalizeAll data with
  | Except.error _ => none
  | Except.ok rows => some rows

/-- The scores DataFrame of line 175: one `ScoreSet` per normalized row. -/
def scoreAll (rows : List NormRow) : List ScoreSet :=
  rows.map compute_scores

/-- The end-to-end example record of the spec (§8): all fields present and
well-formed. -/
def exRecord : RawRecord :=
  { timestamp := some "2024-01-01T00:00:00"
    mac_addr := some "AA:BB:CC:DD:EE:FF"
    vendor := some "Acme"
    ssid := some "FreeWifi"
    channel := some 6
    bandwidth := some "HT/20"
    beacon_int := some (PyVal.ofNum 100)
    rssis_all := some [PyVal.ofNum (-40)]
    ie_info := some [("RSN", [])]
    multi_channel := none }

/-- The row `normalize` produces for `exRecord`. -/
def exRow : NormRow :=
  { date := some "2024-01-01T00:00:00"
    bssid := "AA:BB:CC"
    oui_vendor := "Acme"
    ssid := "FreeWifi"
    chan := some 6
    bandwidth := "HT/20"
    bandwidth_mhz := some 20
    beacon_int := some 100
    rssi_dbm := some (-40)
    ie_keys := ["RSN"]
    rsn_ies := "[]"
    entropy_penalty := 42 }

theorem normalize_exRecord : normalize exRecord = Except.ok exRow := by rfl

/-- A `rsnStep` iteration leaves a score dict whose `rsnmismatch` is
already 0 unchanged. -/
theorem rsnStep_id (s : ScoreSet) (h : s.rsnmismatch = 0) (c : Char) :
    rsnStep s c = s := by
  cases s
  unfold rsnStep
  split <;> simp_all

/-- The whole RSN loop (lines 148-150) is the identity on a score dict
whose `rsnmismatch` is already 0. -/
theorem rsn_foldl_id (l : List Char) (s : ScoreSet) (h : s.rsnmismatch = 0) :
    l.foldl rsnStep s = s := by
  induction l with
  | nil => rfl
  | cons c cs ih => rw [List.foldl_cons, rsnStep_id s h c, ih]

/-- Normal form of `compute_scores`: each sub-score as a closed function of
the row, with the RSN loop eliminated. -/
theorem compute_scores_eq (row : NormRow) :
    compute_scores row =
      { ouinomismatch := if match_oui row.ssid row.oui_vendor then 0 else 3
        rsnmismatch := 0
        multi_channel :=
          if strStartsWith row.bandwidth "40" || strStartsWith row.bandwidth "80"
          then 2 else 0
        timing_anomalie := if timing_ok row.beacon_int then 0 else 3
        entropy_penalty := -(row.entropy_penalty : Int)
        total_score :=
          max (if match_oui row.ssid row.oui_vendor then 0 else 3)
            (max 0
              (max (if strStartsWith row.bandwidth "40" ||
                       strStartsWith row.bandwidth "80" then 2 else 0)
                (max (if timing_ok row.beacon_int then 0 else 3)
                  (max (-(row.entropy_penalty : Int)) 0)))) } := by
  unfold compute_scores
  cases hvm : match_oui row.ssid row.oui_vendor <;>
    cases hbw : (strStartsWith row.bandwidth "40" ||
      strStartsWith row.bandwidth "80") <;>
    cases hto : timing_ok row.beacon_int <;>
    simp [hvm, hbw, hto, rsn_foldl_id]

/-- Inversion: the fields of a successfully normalized row in terms of the
raw record. -/
theorem normalize_ok_fields (r : RawRecord) (row : NormRow)
    (h : normalize r = Except.ok row) :
    row.entropy_penalty = entPenalty (r.mac_addr.getD "") ∧
    row.bssid = pyTake (r.mac_addr.getD "") 8 ∧
    row.bandwidth = pyStrip (r.bandwidth.getD "") ∧
    row.oui_vendor = r.vendor.getD "" ∧
    r.ssid = some row.ssid := by
  unfold normalize at h
  cases hie : r.ie_info with
  | none => rw [hie] at h; cases h
  | some ieInfo =>
    rw [hie] at h
    cases hb : beaconFloat r.beacon_int with
    | error e => rw [hb] at h; cases h
    | ok beacon =>
      rw [hb] at h
      cases hss : r.ssid with
      | none => rw [hss] at h; cases h
      | some ssid =>
        rw [hss] at h
        cases hrs : rssiFloat r.rssis_all with
        | error e => rw [hrs] at h; cases h
        | ok rssi =>
          rw [hrs] at h
          injection h with h
          subst h
          exact ⟨rfl, rfl, rfl, rfl, rfl⟩

/-- Success case of `normalize`: every fallible extraction succeeded. -/
theorem normalize_ok_of (r : RawRecord) (ieInfo : List (String × List String))
    (ss : String) (b rs : Option ℚ)
    (hie : r.ie_info = some ieInfo) (hss : r.ssid = some ss)
    (hb : beaconFloat r.beacon_int = Except.ok b)
    (hrs : rssiFloat r.rssis_all = Except.ok rs) :
    normalize r = Except.ok {
      date := r.timestamp
      bssid := pyTake (r.mac_addr.getD "") 8
      oui_vendor := r.vendor.getD ""
      ssid := ss
      chan := r.channel
      bandwidth := pyStrip (r.bandwidth.getD "")
      bandwidth_mhz := extractBwMhz (pyStrip (r.bandwidth.getD ""))
      beacon_int := b
      rssi_dbm := rs
      ie_keys := ieInfo.map Prod.fst
      rsn_ies := pyTake (pyStrList ((List.lookup "RSN" ieInfo).getD [])) 60
      entropy_penalty := entPenalty (r.mac_addr.getD "") } := by
  unfold normalize
  rw [hie, hb, hss, hrs]

/-- C1 counterexample: the claim says `entropy_penalty` is
`min(int(len(bssid[:8]) * 2.5), 100)`, i.e. 20 for the example MAC
`AA:BB:CC:DD:EE:FF`; the code computes it on the UNTRUNCATED mac string
(line 70 runs before the `bssid[:8]` of line 85) and yields 42. -/
theorem C1_counterexample :
    (normalize exRecord).toOption.map NormRow.entropy_penalty = some 42 ∧
    min ((pyTake (exRecord.mac_addr.getD "") 8).length * 5 / 2) 100 = 20 ∧
    (normalize exRecord).toOption.map NormRow.entropy_penalty ≠
      some (min ((pyTake (exRecord.mac_addr.getD "") 8).length * 5 / 2) 100) := by
  refine ⟨?_, by decide, ?_⟩ <;> rw [normalize_exRecord] <;> decide

/-- C1 (amended): `entropy_penalty` equals
`min(int(len(mac_addr) * 2.5), 100)` computed on the FULL raw mac string
(so 42, not 20, for `AA:BB:CC:DD:EE:FF`), and it never exceeds 100 nor
goes below 0. -/
theorem C1_amended_thm (r : RawRecord) (row : NormRow)
    (h : normalize r = Except.ok row) :
    row.entropy_penalty = min ((r.mac_addr.getD "").length * 5 / 2) 100 ∧
    row.entropy_penalty ≤ 100 ∧ 0 ≤ (row.entropy_penalty : Int) := by
  have hf := (normalize_ok_fields r row h).1
  refine ⟨hf, ?_, Int.natCast_nonneg _⟩
  rw [hf]
  exact min_le_right _ _

/-- Witness for C1 (amended) at the spec's end-to-end example record. -/
theorem C1_amended_witness :
    exRow.entropy_penalty = min ((exRecord.mac_addr.getD "").length * 5 / 2) 100 ∧
    exRow.entropy_penalty ≤ 100 ∧ 0 ≤ (exRow.entropy_penalty : Int) :=
  C1_amended_thm exRecord exRow (by rfl)

/-- C2: the `rsnmismatch` sub-score of every `ScoreSet` produced by
`compute_scores` is exactly 0, regardless of the record's RSN
information-element contents. -/
theorem C2_thm (row : NormRow) : (compute_scores row).rsnmismatch = 0 := by
  rw [compute_scores_eq]

/-- C3: `total_score` is the maximum of the five sub-scores (with
`entropy_penalty` already negative), not a sum; the extra pre-initialized
`total_score = 0` entry of the dict never changes the max because
`rsnmismatch = 0` is among the five. -/
theorem C3_thm (row : NormRow) :
    (compute_scores row).total_score =
      max (compute_scores row).ouinomismatch
        (max (compute_scores row).rsnmismatch
          (max (compute_scores row).multi_channel
            (max (compute_scores row).timing_anomalie
              (compute_scores row).entropy_penalty))) := by
  rw [compute_scores_eq]
  dsimp only
  split_ifs <;> omega

/-- The example record with a present-but-non-numeric beacon interval. -/
def c4Record : RawRecord := { exRecord with beacon_int := some (PyVal.nonNumeric "abc") }

/-- C4 counterexample: a record whose `beacon_int` is present but
non-numeric makes `float(row["beacon_int"])` (line 64, no try/except)
raise, aborting the run — the claim says it must not. -/
theorem C4_counterexample :
    normalize c4Record = Except.error (PyErr.valueError "abc") ∧
    csvOutput [c4Record] = none := by
  exact ⟨rfl, rfl⟩

/-- C4 (amended): each MISSING optional field, taken individually, is never
fatal — an absent `bandwidth` degrades to the empty string (and an unset
`bandwidth_mhz`), an absent `beacon_int` and an absent `rssis.all` each
degrade to the NaN sentinel, and the `multi_channel` flag is never even
consulted by normalization — but a present-and-non-numeric `beacon_int`
(line 64) or `rssis.all[0]` (line 92) makes `float()` raise and aborts the
whole run. -/
theorem C4_amended_thm (r : RawRecord) (ieInfo : List (String × List String))
    (ss : String) (hie : r.ie_info = some ieInfo) (hss : r.ssid = some ss) :
    (∀ b rs, beaconFloat r.beacon_int = Except.ok b →
      rssiFloat r.rssis_all = Except.ok rs → r.bandwidth = none →
      ∃ row, normalize r = Except.ok row ∧ row.bandwidth = "" ∧
        row.bandwidth_mhz = none) ∧
    (∀ rs, r.beacon_int = none → rssiFloat r.rssis_all = Except.ok rs →
      ∃ row, normalize r = Except.ok row ∧ row.beacon_int = none) ∧
    (∀ b, beaconFloat r.beacon_int = Except.ok b → r.rssis_all = none →
      ∃ row, normalize r = Except.ok row ∧ row.rssi_dbm = none) ∧
    (∀ fl, normalize { r with multi_channel := fl } = normalize r) ∧
    (∀ s, r.beacon_int = some (PyVal.nonNumeric s) →
      normalize r = Except.error (PyErr.valueError s)) ∧
    (∀ s rest b, beaconFloat r.beacon_int = Except.ok b →
      r.rssis_all = some (PyVal.nonNumeric s :: rest) →
      normalize r = Except.error (PyErr.valueError s)) := by
  refine ⟨?_, ?_, ?_, ?_, ?_, ?_⟩
  · intro b rs hb hrs hbw
    refine ⟨_, normalize_ok_of r ieInfo ss b rs hie hss hb hrs, ?_, ?_⟩
    · rw [hbw]; rfl
    · rw [hbw]; rfl
  · intro rs hb hrs
    exact ⟨_, normalize_ok_of r ieInfo ss none rs hie hss (by rw [hb]; rfl) hrs, rfl⟩
  · intro b hb hr
    exact ⟨_, normalize_ok_of r ieInfo ss b none hie hss hb (by rw [hr]; rfl), rfl⟩
  · intro fl
    rfl
  · intro s hb
    unfold normalize
    rw [hie, hb]
    rfl
  · intro s rest b hb hr
    unfold normalize
    rw [hie, hb, hss, hr]
    rfl

/-- A record with all optional numeric fields missing. -/
def c4aRecord : RawRecord :=
  { timestamp := some "2024-01-01T00:00:00", mac_addr := some "AA:BB:CC:DD:EE:FF",
    vendor := some "Acme", ssid := some "FreeWifi", channel := some 6,
    bandwidth := none, beacon_int := none, rssis_all := none,
    ie_info := some [("RSN", [])], multi_channel := none }

/-- The example record whose `rssis.all[0]` is present but non-numeric. -/
def c4rRecord : RawRecord := { exRecord with rssis_all := some [PyVal.nonNumeric "n/a"] }

/-- Witness for C4 (amended): all three graceful branches at a record with
every optional field missing, and both fatal branches at concrete records
carrying a non-numeric `beacon_int` resp. `rssis.all[0]`. -/
theorem C4_amended_witness :
    (∃ row, normalize c4aRecord = Except.ok row ∧ row.bandwidth = "" ∧
      row.bandwidth_mhz = none) ∧
    (∃ row, normalize c4aRecord = Except.ok row ∧ row.beacon_int = none) ∧
    (∃ row, normalize c4aRecord = Except.ok row ∧ row.rssi_dbm = none) ∧
    normalize c4Record = Except.error (PyErr.valueError "abc") ∧
    normalize c4rRecord = Except.error (PyErr.valueError "n/a") :=
  ⟨(C4_amended_thm c4aRecord [("RSN", [])] "FreeWifi" rfl rfl).1 none none rfl rfl rfl,
   (C4_amended_thm c4aRecord [("RSN", [])] "FreeWifi" rfl rfl).2.1 none rfl rfl,
   (C4_amended_thm c4aRecord [("RSN", [])] "FreeWifi" rfl rfl).2.2.1 none rfl rfl,
   (C4_amended_thm c4Record [("RSN", [])] "FreeWifi" rfl rfl).2.2.2.2.1 "abc" rfl,
   (C4_amended_thm c4rRecord [("RSN", [])] "FreeWifi" rfl rfl).2.2.2.2.2 "n/a" [] (some 100)
     rfl rfl⟩

/-- The example record with `rssis.all` present but empty. -/
def c5Record : RawRecord := { exRecord with rssis_all := some [] }

/-- C5 counterexample: `rssis.all` present but EMPTY does not degrade to
the NaN sentinel — `[...][0]` on line 92 raises IndexError and the run
aborts, against the claim's "normalization succeeds". -/
theorem C5_counterexample :
    c5Record.rssis_all = some [] ∧
    normalize c5Record = Except.error PyErr.indexError ∧
    csvOutput [c5Record] = none := by
  exact ⟨rfl, rfl, rfl⟩

/-- C5 (amended): `rssi_dbm` is the first element of `rssis.all` when that
list is present with a numeric head; an ABSENT list gives the NaN sentinel
(`none`, never 0) without aborting; a present-but-EMPTY list raises
IndexError and aborts the run. -/
theorem C5_amended_thm (r : RawRecord) (ieInfo : List (String × List String))
    (ss : String) (b : Option ℚ)
    (hie : r.ie_info = some ieInfo) (hss : r.ssid = some ss)
    (hb : beaconFloat r.beacon_int = Except.ok b) :
    (r.rssis_all = none →
      ∃ row, normalize r = Except.ok row ∧ row.rssi_dbm = none) ∧
    (∀ q rest, r.rssis_all = some (PyVal.ofNum q :: rest) →
      ∃ row, normalize r = Except.ok row ∧ row.rssi_dbm = some q) ∧
    (r.rssis_all = some [] → normalize r = Except.error PyErr.indexError) := by
  refine ⟨?_, ?_, ?_⟩
  · intro hr
    exact ⟨_, normalize_ok_of r ieInfo ss b none hie hss hb (by rw [hr]; rfl), rfl⟩
  · intro q rest hr
    exact ⟨_, normalize_ok_of r ieInfo ss b (some q) hie hss hb (by rw [hr]; rfl), rfl⟩
  · intro hr
    unfold normalize
    rw [hie, hb, hss, hr]
    rfl

/-- The example record with `rssis`/`rssis.all` absent. -/
def c5bRecord : RawRecord := { exRecord with rssis_all := none }

/-- Witness for C5 (amended): the absent-list branch at a concrete record. -/
theorem C5_amended_witness :
    ∃ row, normalize c5bRecord = Except.ok row ∧ row.rssi_dbm = none :=
  (C5_amended_thm c5bRecord [("RSN", [])] "FreeWifi" (some 100) rfl rfl rfl).1 rfl

/-- The example record carrying an explicit truthy `multi_channel` flag. -/
def c6Record : RawRecord := { exRecord with multi_channel := some true }

/-- C6 counterexample: a record with a present-and-truthy `multi_channel`
flag and a non-40/80 bandwidth gets sub-score 0, not the claimed 2: the
DataFrame's fixed column list drops the flag, so `row.get("multi_channel")`
on line 155 is always `None`. -/
theorem C6_counterexample :
    c6Record.multi_channel = some true ∧
    strStartsWith (pyStrip (c6Record.bandwidth.getD "")) "40" = false ∧
    strStartsWith (pyStrip (c6Record.bandwidth.getD "")) "80" = false ∧
    (normalize c6Record).toOption.map
      (fun row => (compute_scores row).multi_channel) = some 0 := by
  decide

/-- C6 (amended): `multi_channel` is 2 iff the raw (stripped) bandwidth
string starts with "40" or "80", and 0 otherwise; the raw record's
explicit `multi_channel` flag is dropped by normalization (the fixed
column list) and can never influence any score. -/
theorem C6_amended_thm :
    (∀ row : NormRow, (compute_scores row).multi_channel =
      if strStartsWith row.bandwidth "40" || strStartsWith row.bandwidth "80"
      then 2 else 0) ∧
    (∀ (r : RawRecord) (fl : Option Bool),
      normalize { r with multi_channel := fl } = normalize r) := by
  constructor
  · intro row
    rw [compute_scores_eq]
  · intro r fl
    rfl

/-- C7: `timing_anomalie` is 0 exactly when the normalized beacon interval
is a number in [10, 10000]; it is 3 when the value is the NaN sentinel
(missing) or out of range.  Boundary checks: 10.000 → 0, 9.999 → 3,
10000 → 0, 10000.001 → 3.  (A present-but-non-numeric raw `beacon_int`
never reaches the scorer: normalization aborts first, see C4.) -/
theorem C7_thm :
    (∀ row : NormRow, (compute_scores row).timing_anomalie =
      match row.beacon_int with
      | some v => if 10 ≤ v ∧ v ≤ 10000 then 0 else 3
      | none => 3) ∧
    (compute_scores { exRow with beacon_int := some 10 }).timing_anomalie = 0 ∧
    (compute_scores { exRow with beacon_int := some (9999/1000) }).timing_anomalie = 3 ∧
    (compute_scores { exRow with beacon_int := some 10000 }).timing_anomalie = 0 ∧
    (compute_scores { exRow with beacon_int := some (10000001/1000) }).timing_anomalie = 3 ∧
    (compute_scores { exRow with beacon_int := none }).timing_anomalie = 3 := by
  have key : ∀ row : NormRow, (compute_scores row).timing_anomalie =
      match row.beacon_int with
      | some v => if 10 ≤ v ∧ v ≤ 10000 then 0 else 3
      | none => 3 := by
    intro row
    rw [compute_scores_eq]
    cases hb : row.beacon_int with
    | none => simp [timing_ok, hb]
    | some v =>
      by_cases hP : 10 ≤ v ∧ v ≤ 10000 <;> simp [timing_ok, hb, hP]
  refine ⟨key, ?_, ?_, ?_, ?_, ?_⟩ <;> rw [key] <;> norm_num

/-- A successfully normalized record had its `ssid` field present. -/
theorem normalize_ok_ssid (r : RawRecord) (row : NormRow)
    (h : normalize r = Except.ok row) : r.ssid = some row.ssid :=
  (normalize_ok_fields r row h).2.2.2.2

/-- C8: if any input record lacks `ssid`, the whole batch aborts with an
exception before `write_csv` runs and no output is produced (no partial
CSV, no per-record skip). -/
theorem C8_thm (data : List RawRecord) (r : RawRecord)
    (hr : r ∈ data) (hs : r.ssid = none) :
    csvOutput data = none ∧ ∃ e, normalizeAll data = Except.error e := by
  have herr : ∃ e, normalizeAll data = Except.error e := by
    induction data with
    | nil => cases hr
    | cons a rest ih =>
      cases hn : normalize a with
      | error e =>
        refine ⟨e, ?_⟩
        unfold normalizeAll
        rw [hn]
      | ok row =>
        rcases List.mem_cons.mp hr with h1 | h1
        · subst h1
          have h2 := normalize_ok_ssid r row hn
          rw [hs] at h2
          cases h2
        · rcases ih h1 with ⟨e, he⟩
          refine ⟨e, ?_⟩
          unfold normalizeAll
          rw [hn, he]
  rcases herr with ⟨e, he⟩
  refine ⟨?_, e, he⟩
  unfold csvOutput
  rw [he]

/-- The example record with the required `ssid` field removed. -/
def c8Record : RawRecord := { exRecord with ssid := none }

/-- Witness for C8 at a one-record batch missing `ssid`. -/
theorem C8_witness :
    c8Record ∈ [c8Record] ∧ c8Record.ssid = none ∧
    (csvOutput [c8Record] = none ∧
      ∃ e, normalizeAll [c8Record] = Except.error e) :=
  ⟨List.mem_singleton.mpr rfl, rfl,
    C8_thm [c8Record] c8Record (List.mem_singleton.mpr rfl) rfl⟩

/-- C9: the `ouinomismatch` sub-score is 3 exactly when neither vendor
token ("aironet", "ralink") occurs case-insensitively in the SSID, and 0
otherwise; the formula reads only the SSID — the reference OUI prefixes of
`base_vendor` are never compared against the BSSID/OUI field. -/
theorem C9_thm (row : NormRow) :
    (compute_scores row).ouinomismatch =
      if strContainsSub (pyLower row.ssid) "aironet" ||
         strContainsSub (pyLower row.ssid) "ralink"
      then 0 else 3 := by
  rw [compute_scores_eq]
  have hA : pyLower "Aironet" = "aironet" := by rfl
  have hR : pyLower "Ralink" = "ralink" := by rfl
  simp [match_oui, base_vendor, hA, hR]

/-- C10: the `oui_vendor` (vendor) field of a normalized record can never
influence any sub-score or the total: two rows differing only there get
identical `ScoreSet`s (the `vendor` parameter of `match_oui` is ignored). -/
theorem C10_thm (row : NormRow) (v : String) :
    compute_scores { row with oui_vendor := v } = compute_scores row := by
  rfl

end Wifi
